import Mathlib

set_option maxRecDepth 8192

/-!
Shallow embedding of the vlc producer's watermark-and-fingerprint
reconciliation protocol (src/producer/air_producer.py) and of its resilience
layer (src/producer/resilience.py), together with theorems settling the
spec's claims about them.
-/

/-- JSON scalar values as they occur in the producer's mapped records. -/
inductive JVal where
  | null
  | str (s : String)
  | num (q : ℚ)
  deriving DecidableEq

/-- A Python `dict[str, str]` such as `seen_for_offset`, modelled as an
insertion-ordered association list with pairwise-distinct keys, the
representation `dict` round-trips through JSON. -/
abbrev SMap := List (String × String)

/-- Models `d.get(k)` on a string dict (`None` when the key is absent). -/
def smGet : SMap → String → Option String
  | [], _ => none
  | (k', v) :: rest, k => if k' = k then some v else smGet rest k

/-- Models `d[k] = v` on a string dict: replaces the value of an existing key in
place, otherwise appends, as Python dicts do. -/
def smSet : SMap → String → String → SMap
  | [], k, v => [(k, v)]
  | (k', v') :: rest, k, v =>
      if k' = k then (k', v) :: rest else (k', v') :: smSet rest k v

/-- A mapped event record (the `out` dict built by `map_record`), as an
ordered key/value list. -/
abbrev Ev := List (String × JVal)

/-- Models `ev.get(k)` on a mapped record. -/
def evGet : Ev → String → Option JVal
  | [], _ => none
  | (k', v) :: rest, k => if k' = k then some v else evGet rest k

/-- Python truthiness of a value fetched with `.get` (an absent key gives
`None`, which is falsy; empty strings and zero are falsy too). -/
def truthy : Option JVal → Bool
  | none => false
  | some .null => false
  | some (.str s) => s != ""
  | some (.num q) => q != 0

/-- String payload of a fetched value; only consulted after `truthy`, so the
defaults are never reached on live paths. -/
def jStrD : Option JVal → String
  | some (.str s) => s
  | _ => ""

/-- Lexicographic order on code points, one step. -/
def charListLt : List Char → List Char → Bool
  | [], [] => false
  | [], _ :: _ => true
  | _ :: _, [] => false
  | c :: cs, d :: ds => if c < d then true else if d < c then false else charListLt cs ds

/-- Python's `<` on strings: lexicographic comparison by code point. The
producer compares its `YYYY-MM-DDTHH:MM:SSZ` timestamps this way, which on
that fixed-width format coincides with chronological order. -/
def strLt (a b : String) : Bool := charListLt a.data b.data

theorem charListLt_irrefl (l : List Char) : charListLt l l = false := by
  induction l with
  | nil => rfl
  | cons c cs ih => simp [charListLt, ih]

theorem strLt_irrefl (s : String) : strLt s s = false := charListLt_irrefl s.data

/-- The fields of one upstream row that `map_record` reads with `r.get(...)`
(src/producer/air_producer.py lines 146-174). The timestamp column name is
dynamic in the source (`r.get(ts_field)`); the value found under it is
modelled by the dedicated `ts_raw` component. `geo` models `geo_point_2d`
in its ODS v2.1 dict form (a lat/lon pair) or absent. -/
structure SrcRow where
  fiwareid : Option String
  objectid : Option Int
  nombre : Option String
  direccion : Option String
  viento_dir : JVal
  viento_vel : JVal
  temperatur : JVal
  humedad_re : JVal
  presion_ba : JVal
  precipitac : JVal
  geo : Option (ℚ × ℚ)
  ts_raw : Option String
  deriving DecidableEq

/-- Models `extract_lat_lon` (lines 111-123) on the dict shape of
`geo_point_2d`; the WKT `POINT` string branch is not exercised by any claim
and is folded into the same `(lat, lon)`-or-`(None, None)` contract. -/
def extract_lat_lon : Option (ℚ × ℚ) → Option ℚ × Option ℚ
  | some (la, lo) => (some la, some lo)
  | none => (none, none)

/-- Models `normalize_ts` (lines 125-138). On canonical
`YYYY-MM-DDTHH:MM:SSZ` inputs, over which the claims quantify, the source
function is the identity (it parses and re-renders the same UTC second). -/
def normalize_ts (s : String) : String := s

/-- Canonical JSON rendering of one change-field scalar, as
`json.dumps(..., sort_keys=True, separators=(",",":"))` renders it. -/
def encJ : JVal → String
  | .null => "null"
  | .str s => "\"" ++ s ++ "\""
  | .num q => toString q

/-- Models `value_fingerprint` (lines 140-144): the source takes the SHA-1
hex digest of the canonical sorted-key JSON of exactly the `CHANGE_FIELDS`
payload. The digest is modelled by its canonical preimage, which identifies
two payloads exactly when the real digest does (collisions aside); every
claim uses the digest only through equality tests. Arguments are the six
`CHANGE_FIELDS` values in sorted key order. -/
def value_fingerprint (humedad_re precipitac presion_ba temperatur viento_dir viento_vel : JVal) :
    String :=
  "humedad_re:" ++ encJ humedad_re ++ ",precipitac:" ++ encJ precipitac ++
  ",presion_ba:" ++ encJ presion_ba ++ ",temperatur:" ++ encJ temperatur ++
  ",viento_dir:" ++ encJ viento_dir ++ ",viento_vel:" ++ encJ viento_vel

/-- The fallback id `f"obj..."` built from `r.get('objectid') or 'na'`
(Python truthiness: a missing or zero objectid falls back to `na`). -/
def objFallback (r : SrcRow) : String :=
  "obj" ++ (match r.objectid with
    | some n => if n = 0 then "na" else toString n
    | none => "na")

/-- Models `r.get("fiwareid") or f"obj..."`: an absent or empty station id falls
back to the objectid-derived one. -/
def fiwareidEff (r : SrcRow) : String :=
  match r.fiwareid with
  | some s => if s = "" then objFallback r else s
  | none => objFallback r

/-- Lifts an optional string field into a JSON value. -/
def optStrJ : Option String → JVal
  | some s => .str s
  | none => .null

/-- Lifts an optional numeric field into a JSON value. -/
def optQJ : Option ℚ → JVal
  | some q => .num q
  | none => .null

/-- Transcribes `map_record` (src/producer/air_producer.py lines 146-174):
builds the `out` dict in the source's key order, ending with the `_fp`
fingerprint over the mapped change fields. -/
def map_record (r : SrcRow) : Ev :=
  let latlon := extract_lat_lon r.geo
  [("fiwareid", .str (fiwareidEff r)),
   ("ts", match r.ts_raw with
     | some s => if s = "" then .null else .str (normalize_ts s)
     | none => .null),
   ("objectid", match r.objectid with | some n => .num (n : ℚ) | none => .null),
   ("nombre", optStrJ r.nombre),
   ("direccion", optStrJ r.direccion),
   ("wind_dir_deg", r.viento_dir),
   ("wind_speed_ms", r.viento_vel),
   ("temperature_c", r.temperatur),
   ("humidity_pct", r.humedad_re),
   ("pressure_hpa", r.presion_ba),
   ("precip_mm", r.precipitac),
   ("lat", optQJ latlon.1),
   ("lon", optQJ latlon.2),
   ("_fp", .str (value_fingerprint r.humedad_re r.precipitac r.presion_ba
                   r.temperatur r.viento_dir r.viento_vel))]

/-- One upstream page response as `fetch_since` sees it: the decoded
`results` array of a successful `session.get`, or an exception (connection
failure or `raise_for_status`). -/
inductive PageOutcome where
  | ok (rows : List SrcRow)
  | err
  deriving DecidableEq

/-- The environment one `fetch_since` call polls: for each base URL, its
sequence of page responses. Once a base's list is exhausted, further pages
return an empty `results` array (end of data). -/
abbrev Upstream := List (List PageOutcome)

/-- The local state of one `fetch_since` call. `seenFO` is the caller's
`seen_for_offset` dict object, threaded explicitly so the embedding records
which dict every write statement targets: the source writes only to the
local copy (`seen_map = dict(seen_for_offset)`, `seen_map = {}`,
`seen_map[sid] = fp`) and only reads `seen_for_offset`. -/
structure FetchAcc where
  seenFO : SMap
  out : List Ev
  max_ts : String
  seen_map : SMap
  deriving DecidableEq

/-- Transcribes the body of the `for r in rows` loop of `fetch_since`
(src/producer/air_producer.py lines 278-309) for one row: map the row, skip
it unless `ts`, `sid` and `fp` are all truthy, advance `max_ts` and reset
the running seen map on a strictly newer timestamp, then apply the
three-way emission decision and record emitted fingerprints at `max_ts`. -/
def processRow (offset_iso : String) (acc : FetchAcc) (r : SrcRow) : FetchAcc :=
  let ev := map_record r
  let ts? := evGet ev "ts"
  let sid? := evGet ev "station_fiwareid"
  let fp? := evGet ev "_fp"
  if !(truthy ts? && truthy sid? && truthy fp?) then acc
  else
    let ts := jStrD ts?
    let sid := jStrD sid?
    let fp := jStrD fp?
    let maxTs := if strLt acc.max_ts ts then ts else acc.max_ts
    let seenMap := if strLt acc.max_ts ts then ([] : SMap) else acc.seen_map
    let shouldEmit : Bool :=
      if strLt offset_iso ts then true
      else if ts = offset_iso then smGet acc.seenFO sid != some fp
      else if ts = maxTs then smGet seenMap sid != some fp
      else false
    if shouldEmit then
      { acc with out := acc.out ++ [ev], max_ts := maxTs,
                 seen_map := if ts = maxTs then smSet seenMap sid fp else seenMap }
    else
      { acc with max_ts := maxTs, seen_map := seenMap }

/-- Transcribes the `while True` paging loop of `fetch_since` for one base
(lines 258-312). The boolean is `true` exactly when the source took the
`return out, max_ts, seen_map` early exit: a page error with rows already
collected. A page error with nothing collected breaks to the next base; an
empty page, or a short page after processing, ends the base normally. -/
def runPages (offset_iso : String) (limit : ℕ) : List PageOutcome → FetchAcc → FetchAcc × Bool
  | [], acc => (acc, false)
  | .err :: _, acc => if acc.out.isEmpty then (acc, false) else (acc, true)
  | .ok rows :: rest, acc =>
      if rows.isEmpty then (acc, false)
      else
        let acc' := rows.foldl (processRow offset_iso) acc
        if rows.length < limit then (acc', false)
        else runPages offset_iso limit rest acc'

/-- Transcribes the `for base in bases` loop (lines 256-314): an early exit
propagates to the caller; after a base finishes normally, `if out: break`
stops at the first base that yielded data. -/
def runBases (offset_iso : String) (limit : ℕ) : Upstream → FetchAcc → FetchAcc × Bool
  | [], acc => (acc, false)
  | b :: bs, acc =>
      let res := runPages offset_iso limit b acc
      if res.2 then res
      else if res.1.out.isEmpty then runBases offset_iso limit bs res.1
      else res

/-- Runs `fetch_since` (src/producer/air_producer.py lines 243-321) and keeps
the whole final state, including the caller's `seen_for_offset` object. -/
def fetch_sinceFull (offset_iso : String) (seen_for_offset : SMap)
    (upstream : Upstream) (limit : ℕ) : FetchAcc × Bool :=
  runBases offset_iso limit upstream
    { seenFO := seen_for_offset, out := [], max_ts := offset_iso,
      seen_map := seen_for_offset }

/-- Transcribes the return value of `fetch_since`: the triple the source returns. On the early exit
the source returns `max_ts` directly; otherwise
`new_offset = max_ts if max_ts > offset_iso else offset_iso` (line 317). -/
def fetch_since (offset_iso : String) (seen_for_offset : SMap)
    (upstream : Upstream) (limit : ℕ) : List Ev × String × SMap :=
  let res := fetch_sinceFull offset_iso seen_for_offset upstream limit
  if res.2 then (res.1.out, res.1.max_ts, res.1.seen_map)
  else (res.1.out,
        if strLt offset_iso res.1.max_ts then res.1.max_ts else offset_iso,
        res.1.seen_map)

/-- The root cause behind several claims: `fetch_since` reads the station id
from key `station_fiwareid`, but `map_record` stores it under `fiwareid`,
so the lookup always misses. -/
theorem evGet_station_fiwareid (r : SrcRow) :
    evGet (map_record r) "station_fiwareid" = none := rfl

/-- Because the station-id lookup misses, every row fails the
`if not (ts and sid and fp)` guard and is skipped. -/
theorem processRow_skip (offset_iso : String) (acc : FetchAcc) (r : SrcRow) :
    processRow offset_iso acc r = acc := by
  simp [processRow, evGet_station_fiwareid, truthy]

theorem foldl_processRow (offset_iso : String) (acc : FetchAcc) (rows : List SrcRow) :
    rows.foldl (processRow offset_iso) acc = acc := by
  induction rows with
  | nil => rfl
  | cons r rest ih => simpa [processRow_skip] using ih

theorem runPages_fix (offset_iso : String) (limit : ℕ) (pages : List PageOutcome)
    (acc : FetchAcc) (h : acc.out = []) :
    runPages offset_iso limit pages acc = (acc, false) := by
  induction pages with
  | nil => rfl
  | cons p rest ih =>
    cases p with
    | err => simp [runPages, h]
    | ok rows =>
      simp only [runPages, foldl_processRow]
      split
      · rfl
      · split
        · rfl
        · exact ih

theorem runBases_fix (offset_iso : String) (limit : ℕ) (up : Upstream)
    (acc : FetchAcc) (h : acc.out = []) :
    runBases offset_iso limit up acc = (acc, false) := by
  induction up with
  | nil => rfl
  | cons b bs ih => simp [runBases, runPages_fix _ _ _ _ h, h, ih]

/-- The net effect of the key mismatch: `fetch_since` always returns an
empty emission list, the input watermark, and the input seen map. -/
theorem fetch_since_const (offset_iso : String) (seen_for_offset : SMap)
    (up : Upstream) (limit : ℕ) :
    fetch_since offset_iso seen_for_offset up limit
      = ([], offset_iso, seen_for_offset) := by
  simp [fetch_since, fetch_sinceFull, runBases_fix, strLt_irrefl]

/-- Watermark `T0` of the concrete reconciliation scenarios. -/
def tsT0 : String := "2025-10-18T17:00:00Z"

/-- The strictly newer snapshot timestamp `T1 > T0`. -/
def tsT1 : String := "2025-10-18T18:00:00Z"

/-- A well-formed upstream row for station `A` stamped `T1`. -/
def rowA : SrcRow :=
  { fiwareid := some "A", objectid := some 1, nombre := some "Olivereta",
    direccion := none, viento_dir := .num 10, viento_vel := .num 2,
    temperatur := .num 21, humedad_re := .num 60, presion_ba := .num 1013,
    precipitac := .num 0, geo := some (391/10, -3/10), ts_raw := some tsT1 }

/-- A well-formed upstream row for station `B` stamped `T1`. -/
def rowB : SrcRow :=
  { fiwareid := some "B", objectid := some 2, nombre := some "Viveros",
    direccion := none, viento_dir := .num 20, viento_vel := .num 3,
    temperatur := .num 22, humedad_re := .num 55, presion_ba := .num 1012,
    precipitac := .num 1, geo := some (392/10, -31/100), ts_raw := some tsT1 }

/-- Station `A` reporting again at the committed watermark `T0`, with changed
measurement values (its fingerprint differs from the one on file). -/
def rowA0 : SrcRow :=
  { rowA with ts_raw := some tsT0, viento_dir := .num 99 }

/-- C1. Two well-formed rows at `T1 > T0` for distinct stations `A` and `B`:
both are mapped with truthy timestamps, ids and fingerprints, yet
`fetch_since` started at watermark `T0` with an empty seen map emits
neither, leaves the watermark at `T0` and the seen map empty — because the
emission loop looks the station id up under `station_fiwareid` while
`map_record` stores it under `fiwareid`. The code contradicts its own
docstring ("records to emit", "Strictly newer - always emit") and the
repository's test for this exact scenario. -/
theorem c1_new_rows_never_emitted :
    evGet (map_record rowA) "ts" = some (.str tsT1) ∧
    evGet (map_record rowB) "ts" = some (.str tsT1) ∧
    evGet (map_record rowA) "fiwareid" = some (.str "A") ∧
    evGet (map_record rowB) "fiwareid" = some (.str "B") ∧
    strLt tsT0 tsT1 = true ∧
    fetch_since tsT0 [] [[.ok [rowA, rowB]]] 100 = ([], tsT0, []) := by
  refine ⟨rfl, rfl, rfl, rfl, by decide, ?_⟩
  exact fetch_since_const tsT0 [] [[.ok [rowA, rowB]]] 100

/-- C3. Reconciliation is idempotent: rerunning `fetch_since` over the same
upstream snapshot from the state the first run returned yields that same
watermark and seen map again and emits nothing. (This holds degenerately:
the `station_fiwareid` key mismatch, see C1, makes every run return its
inputs unchanged with an empty emission list.) -/
theorem c3_reconcile_idempotent (offset_iso : String) (seen : SMap)
    (up : Upstream) (limit : ℕ) :
    fetch_since (fetch_since offset_iso seen up limit).2.1
        (fetch_since offset_iso seen up limit).2.2 up limit
      = ([], (fetch_since offset_iso seen up limit).2.1,
         (fetch_since offset_iso seen up limit).2.2) := by
  simp [fetch_since_const]

/-- Closed instance of C3 at a concrete snapshot. -/
theorem c3_reconcile_idempotent_witness :
    fetch_since (fetch_since tsT0 [("A", "fp")] [[.ok [rowA, rowB]]] 100).2.1
        (fetch_since tsT0 [("A", "fp")] [[.ok [rowA, rowB]]] 100).2.2
        [[.ok [rowA, rowB]]] 100
      = ([], (fetch_since tsT0 [("A", "fp")] [[.ok [rowA, rowB]]] 100).2.1,
         (fetch_since tsT0 [("A", "fp")] [[.ok [rowA, rowB]]] 100).2.2) :=
  c3_reconcile_idempotent tsT0 [("A", "fp")] [[.ok [rowA, rowB]]] 100

/-- C4. Watermark monotonicity: whatever the upstream returns (errors, empty
pages, malformed rows included), the returned `next_watermark` is never
below the input watermark. -/
theorem c4_watermark_monotone (offset_iso : String) (seen : SMap)
    (up : Upstream) (limit : ℕ) :
    strLt (fetch_since offset_iso seen up limit).2.1 offset_iso = false := by
  simp [fetch_since_const, strLt_irrefl]

/-- Closed instance of C4 on an erroring upstream. -/
theorem c4_watermark_monotone_witness :
    strLt (fetch_since tsT0 [] [[.err], [.ok [rowA]]] 100).2.1 tsT0 = false :=
  c4_watermark_monotone tsT0 [] [[.err], [.ok [rowA]]] 100

/-- C5. A row for station `A` tied with the committed watermark `T0`, whose
fingerprint differs from the one recorded in `seen_for_offset`, should be
emitted with the seen map updated to the new fingerprint; the code instead
drops the row (the `station_fiwareid` lookup misses, see C1) and returns
the seen map unchanged. -/
theorem c5_changed_tie_row_dropped :
    evGet (map_record rowA0) "ts" = some (.str tsT0) ∧
    evGet (map_record rowA0) "_fp" ≠ some (.str "fp-old") ∧
    fetch_since tsT0 [("A", "fp-old")] [[.ok [rowA0]]] 100
      = ([], tsT0, [("A", "fp-old")]) := by
  refine ⟨rfl, by decide, ?_⟩
  exact fetch_since_const tsT0 [("A", "fp-old")] [[.ok [rowA0]]] 100

/-- C6. Partial-failure behaviour: with page size 1, the first page of the
first base succeeds with a valid row and the second page raises. The claim
(and the repository's test for this scenario) expects the one collected row
to be returned with the advanced watermark; the code returns an empty list
with the watermark unchanged, because no row is ever collected (see C1).
The second conjunct checks the true part of the claim: when the very first
page attempt fails on every base, the result is empty with the watermark
unchanged. -/
theorem c6_collected_rows_lost :
    fetch_since tsT0 [] [[.ok [rowA], .err]] 1 = ([], tsT0, []) ∧
    fetch_since tsT0 [] [[.err], [.err]] 100 = ([], tsT0, []) :=
  ⟨fetch_since_const tsT0 [] [[.ok [rowA], .err]] 1,
   fetch_since_const tsT0 [] [[.err], [.err]] 100⟩

/-- Frame fact: `processRow` never writes to the caller's `seen_for_offset` object; every
dict write in the loop body targets the local copy. -/
theorem processRow_seenFO (offset_iso : String) (acc : FetchAcc) (r : SrcRow) :
    (processRow offset_iso acc r).seenFO = acc.seenFO := by
  rw [processRow_skip]

theorem foldl_processRow_seenFO (offset_iso : String) (acc : FetchAcc)
    (rows : List SrcRow) :
    (rows.foldl (processRow offset_iso) acc).seenFO = acc.seenFO := by
  induction rows generalizing acc with
  | nil => rfl
  | cons r rest ih => rw [List.foldl_cons, ih, processRow_seenFO]

theorem runPages_seenFO (offset_iso : String) (limit : ℕ) (pages : List PageOutcome)
    (acc : FetchAcc) :
    (runPages offset_iso limit pages acc).1.seenFO = acc.seenFO := by
  induction pages generalizing acc with
  | nil => rfl
  | cons p rest ih =>
    cases p with
    | err =>
      simp only [runPages]
      split <;> rfl
    | ok rows =>
      simp only [runPages]
      split
      · rfl
      · split
        · exact foldl_processRow_seenFO offset_iso acc rows
        · rw [ih, foldl_processRow_seenFO]

theorem runBases_seenFO (offset_iso : String) (limit : ℕ) (up : Upstream)
    (acc : FetchAcc) :
    (runBases offset_iso limit up acc).1.seenFO = acc.seenFO := by
  induction up generalizing acc with
  | nil => rfl
  | cons b bs ih =>
    simp only [runBases]
    split
    · exact runPages_seenFO offset_iso limit b acc
    · split
      · rw [ih, runPages_seenFO]
      · exact runPages_seenFO offset_iso limit b acc

/-- C10. `fetch_since` never mutates its `seen_for_offset` argument: the
caller's dict object (threaded through the whole run as the `seenFO`
component) is unchanged when the call returns, by any path — every seen-map
write targets the internal copy returned as the third result. -/
theorem c10_seen_for_offset_unmutated (offset_iso : String) (seen : SMap)
    (up : Upstream) (limit : ℕ) :
    (fetch_sinceFull offset_iso seen up limit).1.seenFO = seen :=
  runBases_seenFO offset_iso limit up _

/-- Closed instance of C10, on an upstream that pages and then errors. -/
theorem c10_seen_for_offset_unmutated_witness :
    (fetch_sinceFull tsT0 [("A", "fp-old")] [[.ok [rowA], .err]] 1).1.seenFO
      = [("A", "fp-old")] :=
  c10_seen_for_offset_unmutated tsT0 [("A", "fp-old")] [[.ok [rowA], .err]] 1

/-- Content of the producer's `state.json` as a reader can find it: a
complete JSON document, or the empty/half-written residue left between
`open(STATE_JSON, "w")` and the end of `json.dump`. -/
inductive StateContent where
  | complete (offset : String) (seen : SMap)
  | truncated
  deriving DecidableEq

/-- The default watermark `START_OFFSET`. -/
def START_OFFSET : String := "1970-01-01T00:00:00Z"

/-- Models `load_offset` (src/producer/air_producer.py lines 58-77) in the
configuration the claims exercise: the legacy `offset.txt` content when the
file exists, else `START_OFFSET` (the optional `latest_db` DB bootstrap is
out of scope per the spec). -/
def load_offset (offsetTxt : Option String) : String := offsetTxt.getD START_OFFSET

/-- Transcribes `load_state` (lines 83-94): a parseable state file yields its
offset and seen map; a missing or unreadable file falls back to the legacy
offset file with an empty seen map. -/
def load_state (stateFile : Option StateContent) (offsetTxt : Option String) :
    String × SMap :=
  match stateFile with
  | some (.complete o s) => (o, s)
  | some .truncated => (load_offset offsetTxt, [])
  | none => (load_offset offsetTxt, [])

/-- The file-system writes `save_state` (lines 97-101) performs, in order:
`open(STATE_JSON, "w")` truncates the state file in place, then `json.dump`
writes the new document. The source has no temp-file write and no rename. -/
inductive SaveStep where
  | truncateInPlace
  | writeDoc (offset : String) (seen : SMap)
  deriving DecidableEq

/-- The step sequence of one `save_state(offset_iso, seen_map)` call. -/
def save_state_steps (offset : String) (seen : SMap) : List SaveStep :=
  [.truncateInPlace, .writeDoc offset seen]

/-- Effect of one write step on the state file. -/
def applySaveStep (_f : Option StateContent) (st : SaveStep) : Option StateContent :=
  match st with
  | .truncateInPlace => some .truncated
  | .writeDoc o s => some (.complete o s)

/-- The state file after a crash that interrupts `save_state` once exactly
the first `k` of its steps have reached the disk. -/
def crashMidSave (f : Option StateContent) (offset : String) (seen : SMap)
    (k : ℕ) : Option StateContent :=
  ((save_state_steps offset seen).take k).foldl applySaveStep f

/-- C2. `save_state` is not write-temp-then-replace: it truncates the state
file in place before writing. A crash between the two steps leaves a
truncated file, and the following `load_state` returns the default fallback
— neither the old complete state nor the new one, contradicting the claim
that a concurrent or post-crash load sees one of the two. -/
theorem c2_crash_after_truncate_loses_state :
    load_state
        (crashMidSave (some (.complete "2025-01-01T00:00:00Z" [("A", "fp1")]))
          "2025-01-02T00:00:00Z" [("A", "fp2")] 1) none
      = ("1970-01-01T00:00:00Z", []) ∧
    (("1970-01-01T00:00:00Z", []) : String × SMap)
        ≠ ("2025-01-01T00:00:00Z", [("A", "fp1")]) ∧
    (("1970-01-01T00:00:00Z", []) : String × SMap)
        ≠ ("2025-01-02T00:00:00Z", [("A", "fp2")]) := by
  refine ⟨rfl, by decide, by decide⟩

/-- Configuration of the exponential backoff (src/producer/resilience.py
lines 24-41). Delay fields are integer milliseconds as parsed from the
environment. -/
structure RetryConfig where
  base_delay_ms : ℕ
  max_delay_ms : ℕ
  max_retries : ℕ
  jitter_factor : ℚ
  deriving DecidableEq

/-- Python `int(x)`: truncation toward zero. -/
def pyInt (x : ℚ) : ℤ := if 0 ≤ x then ⌊x⌋ else ⌈x⌉

/-- The deterministic part of `ExponentialBackoff.delay_ms`:
`min(base_delay_ms * 2 ** attempt, max_delay_ms)`. -/
def rawDelay (c : RetryConfig) (attempt : ℕ) : ℕ :=
  min (c.base_delay_ms * 2 ^ attempt) c.max_delay_ms

/-- Transcribes `ExponentialBackoff.delay_ms` (resilience.py lines 51-63)
with the `random.uniform(-jitter_range, jitter_range)` sample passed in as
`u`; callers constrain `|u| ≤ jitter_factor * delay`. The source returns
`max(0, int(delay + jitter))`. -/
def delay_ms (c : RetryConfig) (attempt : ℕ) (u : ℚ) : ℤ :=
  max 0 (pyInt ((rawDelay c attempt : ℚ) + u))

/-- C7 counterexample. With base 10 ms, cap 60000 ms and jitter factor 1/4,
a legal jitter sample of -5/2 at attempt 0 yields `int(10 - 5/2) = 7`,
which lies strictly below the claimed lower bound `10 - (1/4) * 10 = 15/2`:
the returned delay does not always lie within ± jitter_factor of the
deterministic value, because `int()` truncates. -/
theorem c7_counterexample :
    |(-5/2 : ℚ)| ≤ (1/4 : ℚ) * (rawDelay ⟨10, 60000, 5, 1/4⟩ 0 : ℚ) ∧
    delay_ms ⟨10, 60000, 5, 1/4⟩ 0 (-5/2) = 7 ∧
    ¬ ((rawDelay ⟨10, 60000, 5, 1/4⟩ 0 : ℚ)
        - (1/4 : ℚ) * (rawDelay ⟨10, 60000, 5, 1/4⟩ 0 : ℚ)
        ≤ (delay_ms ⟨10, 60000, 5, 1/4⟩ 0 (-5/2) : ℚ)) := by
  refine ⟨by norm_num [rawDelay, abs_le], ?_, ?_⟩
  · norm_num [delay_ms, rawDelay, pyInt]
  · norm_num [delay_ms, rawDelay, pyInt]

/-- C7 as amended. For every config and attempt, with the jitter sample `u`
ranging over the legal `uniform(-jitter_range, jitter_range)` interval:
with jitter factor 0 the delay is exactly `min(base * 2 ^ attempt, cap)`;
in general the delay is never negative, at most `(1 + j)` times the
deterministic value, and strictly greater than `(1 - j)` times it minus
one millisecond (the `int()` truncation can land just below `(1 - j) * D`,
which is the sole correction to the claim). -/
theorem c7_backoff_delay_bounds (c : RetryConfig) (n : ℕ) (u : ℚ)
    (hu : |u| ≤ c.jitter_factor * (rawDelay c n : ℚ)) :
    (c.jitter_factor = 0 → delay_ms c n u = (rawDelay c n : ℤ)) ∧
    0 ≤ delay_ms c n u ∧
    (delay_ms c n u : ℚ) ≤ (rawDelay c n : ℚ) * (1 + c.jitter_factor) ∧
    (rawDelay c n : ℚ) * (1 - c.jitter_factor) - 1 < (delay_ms c n u : ℚ) := by
  have hD : (0 : ℚ) ≤ (rawDelay c n : ℚ) := Nat.cast_nonneg _
  have hjD : (0 : ℚ) ≤ c.jitter_factor * (rawDelay c n : ℚ) :=
    le_trans (abs_nonneg u) hu
  obtain ⟨hul, huu⟩ := abs_le.mp hu
  refine ⟨?_, le_max_left _ _, ?_, ?_⟩
  · intro hj
    have hu0 : u = 0 := by
      rw [hj, zero_mul] at hu
      exact abs_eq_zero.mp (le_antisymm hu (abs_nonneg u))
    subst hu0
    have hp : pyInt ((rawDelay c n : ℚ) + 0) = (rawDelay c n : ℤ) := by
      rw [add_zero, pyInt, if_pos hD, Int.floor_natCast]
    rw [delay_ms, hp, max_eq_right (by exact_mod_cast Nat.zero_le (rawDelay c n))]
  · by_cases hx : (0 : ℚ) ≤ (rawDelay c n : ℚ) + u
    · have hfl : pyInt ((rawDelay c n : ℚ) + u) = ⌊(rawDelay c n : ℚ) + u⌋ :=
        if_pos hx
      rw [delay_ms, hfl]
      push_cast [Int.cast_max]
      rw [max_le_iff]
      refine ⟨by nlinarith, ?_⟩
      have h1 : ((⌊(rawDelay c n : ℚ) + u⌋ : ℤ) : ℚ) ≤ (rawDelay c n : ℚ) + u :=
        Int.floor_le _
      nlinarith
    · have hceil : pyInt ((rawDelay c n : ℚ) + u) = ⌈(rawDelay c n : ℚ) + u⌉ :=
        if_neg hx
      have hc0 : ⌈(rawDelay c n : ℚ) + u⌉ ≤ 0 :=
        Int.ceil_le.mpr (by push_cast; exact le_of_not_le hx)
      rw [delay_ms, hceil, max_eq_left hc0]
      push_cast
      nlinarith
  · by_cases hx : (0 : ℚ) ≤ (rawDelay c n : ℚ) + u
    · have hfl : pyInt ((rawDelay c n : ℚ) + u) = ⌊(rawDelay c n : ℚ) + u⌋ :=
        if_pos hx
      rw [delay_ms, hfl]
      push_cast [Int.cast_max]
      have h2 : (rawDelay c n : ℚ) + u - 1 < ((⌊(rawDelay c n : ℚ) + u⌋ : ℤ) : ℚ) :=
        Int.sub_one_lt_floor _
      have h3 : ((⌊(rawDelay c n : ℚ) + u⌋ : ℤ) : ℚ)
          ≤ max 0 ((⌊(rawDelay c n : ℚ) + u⌋ : ℤ) : ℚ) := le_max_right _ _
      nlinarith
    · have hneg : (rawDelay c n : ℚ) + u < 0 := not_le.mp hx
      have hnn : (0 : ℚ) ≤ ((max 0 (pyInt ((rawDelay c n : ℚ) + u)) : ℤ) : ℚ) := by
        exact_mod_cast le_max_left 0 (pyInt ((rawDelay c n : ℚ) + u))
      rw [delay_ms]
      nlinarith

/-- Closed instance of C7's amended bounds at base 1000 ms, attempt 1,
jitter factor 3/10 and sample +300 (within the legal ±600). -/
theorem c7_backoff_delay_bounds_witness :
    (((⟨1000, 60000, 5, 3/10⟩ : RetryConfig).jitter_factor = 0 →
        delay_ms ⟨1000, 60000, 5, 3/10⟩ 1 300 = (rawDelay ⟨1000, 60000, 5, 3/10⟩ 1 : ℤ)) ∧
      0 ≤ delay_ms ⟨1000, 60000, 5, 3/10⟩ 1 300 ∧
      (delay_ms ⟨1000, 60000, 5, 3/10⟩ 1 300 : ℚ)
        ≤ (rawDelay ⟨1000, 60000, 5, 3/10⟩ 1 : ℚ)
            * (1 + (⟨1000, 60000, 5, 3/10⟩ : RetryConfig).jitter_factor) ∧
      (rawDelay ⟨1000, 60000, 5, 3/10⟩ 1 : ℚ)
          * (1 - (⟨1000, 60000, 5, 3/10⟩ : RetryConfig).jitter_factor) - 1
        < (delay_ms ⟨1000, 60000, 5, 3/10⟩ 1 300 : ℚ)) :=
  c7_backoff_delay_bounds ⟨1000, 60000, 5, 3/10⟩ 1 300
    (by norm_num [rawDelay, abs_le])

/-- One line of the DLQ's JSON-lines backing file: a record as `enqueue`
writes it (`json.dumps` of key, value and enqueue time), or any other line
content — blank, or non-JSON — which `dequeue_all` skips. -/
inductive QLine where
  | entry (key value : String) (ts : ℚ)
  | junk (s : String)
  deriving DecidableEq

/-- The DLQ backing file: `none` when the file does not exist. -/
abbrev QFile := Option (List QLine)

/-- Per-line parsing inside `dequeue_all` (resilience.py lines 214-225): a
well-formed record yields its key/value pair (via `rec.get(..., "")`);
blank lines and lines raising `JSONDecodeError` are skipped. -/
def decodeLine : QLine → Option (String × String)
  | .entry k v _ => some (k, v)
  | .junk _ => none

/-- Transcribes `DiskQueue.enqueue` (resilience.py lines 192-201): appends
one JSON line under the lock; `open(..., "a")` creates the file if absent. -/
def enqueue (f : QFile) (key value : String) (now : ℚ) : QFile :=
  some (f.getD [] ++ [.entry key value now])

/-- Transcribes `DiskQueue.dequeue_all` (resilience.py lines 203-230):
returns every parseable line in file order and unlinks the backing file; an
absent file yields the empty list. The pair is (returned messages, file
afterwards). -/
def dequeue_all (f : QFile) : List (String × String) × QFile :=
  match f with
  | none => ([], none)
  | some lines => (lines.filterMap decodeLine, none)

/-- C8. DLQ drain is all-or-nothing: enqueueing two entries and draining
returns exactly those two in order and removes the backing file; a drain
never leaves any file content behind (hence never a proper nonempty
subset); the drain immediately after any drain returns the empty list; and
on an arbitrary file a drain returns exactly the parseable lines, skipping
malformed ones rather than aborting. -/
theorem c8_dlq_drain_all_or_nothing (k₁ v₁ k₂ v₂ : String) (t₁ t₂ : ℚ) (f : QFile) :
    dequeue_all (enqueue (enqueue none k₁ v₁ t₁) k₂ v₂ t₂)
      = ([(k₁, v₁), (k₂, v₂)], none) ∧
    (dequeue_all f).2 = none ∧
    dequeue_all (dequeue_all f).2 = ([], none) ∧
    ∀ lines : List QLine,
      (dequeue_all (some lines)).1 = lines.filterMap decodeLine := by
  refine ⟨rfl, ?_, ?_, fun lines => rfl⟩
  · cases f <;> rfl
  · cases f <;> rfl

/-- Closed instance of C8 with one malformed line interleaved. -/
theorem c8_dlq_drain_all_or_nothing_witness :
    dequeue_all (enqueue (enqueue none "k1" "v1" 1) "k2" "v2" 2)
      = ([("k1", "v1"), ("k2", "v2")], none) ∧
    (dequeue_all (some [.entry "k1" "v1" 1, .junk "oops", .entry "k2" "v2" 2])).2
      = none ∧
    dequeue_all (dequeue_all
        (some [.entry "k1" "v1" 1, .junk "oops", .entry "k2" "v2" 2])).2
      = ([], none) ∧
    ∀ lines : List QLine,
      (dequeue_all (some lines)).1 = lines.filterMap decodeLine :=
  (c8_dlq_drain_all_or_nothing "k1" "v1" "k2" "v2" 1 2
    (some [.entry "k1" "v1" 1, .junk "oops", .entry "k2" "v2" 2]))

/-- Counters of `ProduceStats` (resilience.py lines 245-283). The rolling-window
reset does not enter the delay law and is not modelled. -/
structure ProduceStats where
  success_count : ℕ
  failure_count : ℕ
  deriving DecidableEq

/-- Transcribes the `failure_ratio` property (lines 272-278): failures over total, zero
on an empty window. -/
def failureRatioVal (s : ProduceStats) : ℚ :=
  if s.success_count + s.failure_count = 0 then 0
  else (s.failure_count : ℚ) / ((s.success_count : ℚ) + (s.failure_count : ℚ))

/-- Configuration of `RateThrottler` (resilience.py lines 289-298). -/
structure ThrottlerCfg where
  min_delay_ms : ℕ
  max_delay_ms : ℕ
  failure_threshold : ℚ
  deriving DecidableEq

/-- Transcribes `RateThrottler.maybe_throttle` (resilience.py lines
308-314): `some d` means `time.sleep(d / 1000)` is invoked with
`delay_ms = d`; `none` means no sleep. The delay is
`min_delay + (max_delay - min_delay) * min(failure_ratio, 1.0)`. -/
def maybe_throttle (c : ThrottlerCfg) (s : ProduceStats) : Option ℚ :=
  if c.failure_threshold < failureRatioVal s then
    some ((c.min_delay_ms : ℚ)
      + ((c.max_delay_ms : ℚ) - (c.min_delay_ms : ℚ)) * min (failureRatioVal s) 1)
  else none

/-- Modelled from the claim's words, for comparison only: a delay scaled
linearly between the min and max delay by how far over the threshold the
(clamped) failure ratio is, so that the delay is the minimum at ratio =
threshold and the maximum at ratio 1. -/
def claimThrottleDelay (c : ThrottlerCfg) (s : ProduceStats) : Option ℚ :=
  if c.failure_threshold < failureRatioVal s then
    some ((c.min_delay_ms : ℚ)
      + ((c.max_delay_ms : ℚ) - (c.min_delay_ms : ℚ))
          * ((min (failureRatioVal s) 1 - c.failure_threshold)
              / (1 - c.failure_threshold)))
  else none

/-- C9 counterexample. With the defaults (min 0 ms, max 5000 ms, threshold
1/10) and a window of 4 successes and 1 failure, the failure ratio is 1/5:
the code sleeps 0 + 5000 * (1/5) = 1000 ms, scaling by the raw ratio,
whereas the claimed law — minimum at the threshold, maximum at ratio 1 —
gives 5000 * ((1/5 - 1/10) / (9/10)) = 5000/9 ms. -/
theorem c9_counterexample :
    maybe_throttle ⟨0, 5000, 1/10⟩ ⟨4, 1⟩ = some 1000 ∧
    claimThrottleDelay ⟨0, 5000, 1/10⟩ ⟨4, 1⟩ = some (5000/9) ∧
    (1000 : ℚ) ≠ 5000/9 := by
  refine ⟨?_, ?_, by norm_num⟩
  · rw [maybe_throttle]
    norm_num [failureRatioVal]
  · rw [claimThrottleDelay]
    norm_num [failureRatioVal]

/-- C9 as amended. `maybe_throttle` sleeps exactly when the failure ratio
strictly exceeds the threshold; the injected delay is
`min + (max - min) * min(ratio, 1)` — linear in the clamped ratio itself,
not in its excess over the threshold — so it equals the max delay at ratio
1, and approaches `min + (max - min) * threshold` (not the min delay) as
the ratio approaches the threshold from above. -/
theorem c9_throttle_delay_law (c : ThrottlerCfg) (s : ProduceStats) :
    (failureRatioVal s ≤ c.failure_threshold → maybe_throttle c s = none) ∧
    (c.failure_threshold < failureRatioVal s →
      maybe_throttle c s
        = some ((c.min_delay_ms : ℚ)
            + ((c.max_delay_ms : ℚ) - (c.min_delay_ms : ℚ))
                * min (failureRatioVal s) 1)) ∧
    (failureRatioVal s = 1 → c.failure_threshold < 1 →
      maybe_throttle c s = some (c.max_delay_ms : ℚ)) := by
  refine ⟨fun h => ?_, fun h => ?_, fun h1 hth => ?_⟩
  · rw [maybe_throttle, if_neg (not_lt.mpr h)]
  · rw [maybe_throttle, if_pos h]
  · rw [maybe_throttle, h1, if_pos hth]
    norm_num

/-- Closed instance of C9's amended law: at ratio 1 with threshold 1/10 the
injected delay is exactly the configured maximum. -/
theorem c9_throttle_delay_law_witness :
    maybe_throttle ⟨0, 5000, 1/10⟩ ⟨0, 3⟩ = some ((5000 : ℕ) : ℚ) :=
  (c9_throttle_delay_law ⟨0, 5000, 1/10⟩ ⟨0, 3⟩).2.2
    (by norm_num [failureRatioVal]) (by norm_num)
